import Mathlib

/-!
# Verification of the REST API Tester request/response pipeline

A shallow embedding of `src/app.py` (a Streamlit REST client).  Python
dictionaries built by the app are modelled as insertion-ordered association
lists over `String` keys; `Option` models Python `None`; the JSON values the
app parses and renders are modelled by an inductive `JsonValue` together with
an executable parser `json_loads` mirroring Python's `json.loads`.
-/

namespace RestApiTester

/-! ## Insertion-ordered dictionaries (CPython `dict` semantics)

CPython dicts preserve insertion order; assigning to an existing key updates
the value in place, assigning to a fresh key appends.  The app only builds
dicts through such assignments, so keys are unique by construction and the
recursive first-occurrence update below coincides with CPython behaviour. -/

/-- `d[k] = v` on a CPython dict: update in place if present, else append. -/
def dictSet {α : Type} : List (String × α) → String → α → List (String × α)
  | [], k, v => [(k, v)]
  | (k', v') :: d, k, v =>
    if k' = k then (k', v) :: d else (k', v') :: dictSet d k v

/-- `d.get(k)` on a CPython dict (first — by uniqueness, only — occurrence). -/
def dictGet {α : Type} : List (String × α) → String → Option α
  | [], _ => none
  | (k', v) :: d, k => if k' = k then some v else dictGet d k

/-- `d.setdefault(k, v)`: insert `v` under `k` only when `k` is absent. -/
def dictSetdefault {α : Type} : List (String × α) → String → α → List (String × α)
  | [], k, v => [(k, v)]
  | (k', v') :: d, k, v =>
    if k' = k then (k', v') :: d else (k', v') :: dictSetdefault d k v

/-- `d.update(e)`: assign every pair of `e` into `d`, in order. -/
def dictUpdate {α : Type} (d e : List (String × α)) : List (String × α) :=
  e.foldl (fun acc p => dictSet acc p.1 p.2) d

/-- The ASCII whitespace characters Python's `str.strip()` removes (the
app never feeds it the more exotic Unicode spaces). -/
def isPySpace (c : Char) : Bool :=
  c = ' ' ∨ c = '\t' ∨ c = '\n' ∨ c = '\r' ∨ c = Char.ofNat 11 ∨ c = Char.ofNat 12

/-- Python `s.strip()`: drop whitespace from both ends. -/
def pyStrip (s : String) : String :=
  ⟨(((s.data.dropWhile isPySpace).reverse).dropWhile isPySpace).reverse⟩

/-- Python `s.startswith(pre)`. -/
def pyStartswith (s pre : String) : Bool :=
  pre.data.isPrefixOf s.data

/-- Python's `needle in hay` substring test on strings. -/
def strIn (needle hay : String) : Bool :=
  (List.range (hay.data.length + 1)).any
    (fun i => needle.data.isPrefixOf (hay.data.drop i))

/-- `app.py` line 10: `APPLICATION_JSON = "application/json"`. -/
def APPLICATION_JSON : String := "application/json"

/-! ## `kv_rows_to_dict` (app.py lines 34–42) -/

/-- One row of a Streamlit `data_editor` table: a Python dict with optional
`"key"`/`"value"` entries, read via `r.get(...)`. -/
structure Row where
  key : Option String := none
  value : Option String := none
deriving DecidableEq, Repr

/-- Python `r.get("key") or ""`: both `None` and `""` collapse to `""`. -/
def getOrEmpty (o : Option String) : String := o.getD ""

/-- The loop body of `kv_rows_to_dict`: strip key and value, and assign
`out[k] = v` unless the stripped key is empty. -/
def kvStep (out : List (String × String)) (r : Row) : List (String × String) :=
  if pyStrip (getOrEmpty r.key) ≠ "" then
    dictSet out (pyStrip (getOrEmpty r.key)) (pyStrip (getOrEmpty r.value))
  else out

/-- `kv_rows_to_dict(rows)`: trim key and value, skip empty trimmed keys,
assign the rest into a dict in row order (so later rows overwrite). -/
def kv_rows_to_dict (rows : List Row) : List (String × String) :=
  rows.foldl kvStep []

/-- Specification-side description of the `kv_rows_to_dict` contract: the
value bound to `k` is the stripped value of the last row whose stripped
key is `k` and non-empty (later rows take priority over earlier ones). -/
def lastWinsSpec : List Row → String → Option String
  | [], _ => none
  | r :: rs, k =>
    match lastWinsSpec rs k with
    | some v => some v
    | none =>
      if pyStrip (getOrEmpty r.key) = k ∧ pyStrip (getOrEmpty r.key) ≠ "" then
        some (pyStrip (getOrEmpty r.value))
      else none

/-- The duplicate/empty-key row list from the spec's example:
`[(a,1), (a,2), (empty,x)]`. -/
def exampleRows : List Row :=
  [{ key := some "a", value := some "1" },
   { key := some "a", value := some "2" },
   { key := some "", value := some "x" }]

/-! ## JSON values and `json.loads`

`try_parse_json` (app.py lines 54–59) and the response body viewer call
Python's `json.loads`.  `JsonValue` models the decoded Python value;
numeric literals keep their validated lexeme, which is all the display
layer needs.  The parser below follows CPython's `json` module: the
whitespace set ` \t\n\r`, the literals `null`/`true`/`false` plus the
default `NaN`/`Infinity`/`-Infinity` constants, JSON string syntax with
escapes (`\uXXXX` decoded codepoint-wise; surrogate-pair recombination is
not modelled), the JSON number grammar, arrays and objects with
last-occurrence-wins duplicate object keys, and rejection of trailing
non-whitespace. -/

inductive JsonValue where
  | null
  | bool (b : Bool)
  | num (lexeme : String)
  | str (s : String)
  | arr (elems : List JsonValue)
  | obj (fields : List (String × JsonValue))

/-- The character `{` (kept out of literals for tooling reasons). -/
def lbrace : Char := Char.ofNat 123

/-- The character `}`. -/
def rbrace : Char := Char.ofNat 125

/-- Skip the JSON whitespace characters space, tab, newline, return. -/
def skipWs : List Char → List Char
  | [] => []
  | c :: cs =>
    if c = ' ' ∨ c = '\t' ∨ c = '\n' ∨ c = '\r' then skipWs cs else c :: cs

/-- Value of a hexadecimal digit. -/
def hexVal (c : Char) : Option Nat :=
  if '0' ≤ c ∧ c ≤ '9' then some (c.toNat - '0'.toNat)
  else if 'a' ≤ c ∧ c ≤ 'f' then some (c.toNat - 'a'.toNat + 10)
  else if 'A' ≤ c ∧ c ≤ 'F' then some (c.toNat - 'A'.toNat + 10)
  else none

/-- Parse the body of a JSON string, the opening quote already consumed.
Returns the decoded string and the input after the closing quote.  Raw
control characters below `0x20` are rejected (CPython strict mode). -/
def parseStringBody (acc : List Char) : List Char → Option (String × List Char)
  | [] => none
  | '"' :: cs => some (⟨acc.reverse⟩, cs)
  | '\\' :: '"' :: cs => parseStringBody ('"' :: acc) cs
  | '\\' :: '\\' :: cs => parseStringBody ('\\' :: acc) cs
  | '\\' :: '/' :: cs => parseStringBody ('/' :: acc) cs
  | '\\' :: 'b' :: cs => parseStringBody (Char.ofNat 8 :: acc) cs
  | '\\' :: 'f' :: cs => parseStringBody (Char.ofNat 12 :: acc) cs
  | '\\' :: 'n' :: cs => parseStringBody ('\n' :: acc) cs
  | '\\' :: 'r' :: cs => parseStringBody ('\r' :: acc) cs
  | '\\' :: 't' :: cs => parseStringBody ('\t' :: acc) cs
  | '\\' :: 'u' :: a :: b :: c :: d :: cs =>
    match hexVal a, hexVal b, hexVal c, hexVal d with
    | some ha, some hb, some hc, some hd =>
      parseStringBody (Char.ofNat (((ha * 16 + hb) * 16 + hc) * 16 + hd) :: acc) cs
    | _, _, _, _ => none
  | '\\' :: _ => none
  | c :: cs => if c.toNat < 32 then none else parseStringBody (c :: acc) cs

/-- Take a maximal run of decimal digits. -/
def takeDigits : List Char → List Char × List Char
  | [] => ([], [])
  | c :: cs =>
    if c.isDigit then
      let (ds, rest) := takeDigits cs
      (c :: ds, rest)
    else ([], c :: cs)

/-- The integer part of a JSON number: `0` or a nonzero digit followed by
digits (no leading zeros), as in CPython's `NUMBER_RE`. -/
def parseIntPart : List Char → Option (List Char × List Char)
  | [] => none
  | c :: cs =>
    if c = '0' then some (['0'], cs)
    else if c.isDigit then
      let (ds, rest) := takeDigits cs
      some (c :: ds, rest)
    else none

/-- Parse a JSON number lexeme `-?int frac? exp?`.  A dot or exponent
marker that is not followed by a digit is left unconsumed, exactly as a
regex match would stop before it. -/
def parseNumber (cs : List Char) : Option (String × List Char) :=
  let (sign, cs1) :=
    match cs with
    | '-' :: r => (['-'], r)
    | _ => ([], cs)
  match parseIntPart cs1 with
  | none => none
  | some (ip, cs2) =>
    let (frac, cs3) :=
      match cs2 with
      | '.' :: r =>
        match takeDigits r with
        | ([], _) => ([], cs2)
        | (ds, rest) => ('.' :: ds, rest)
      | _ => ([], cs2)
    let (ex, cs4) :=
      match cs3 with
      | e :: r =>
        if e = 'e' ∨ e = 'E' then
          let (sg, r2) :=
            match r with
            | '+' :: rr => (['+'], rr)
            | '-' :: rr => (['-'], rr)
            | _ => ([], r)
          match takeDigits r2 with
          | ([], _) => ([], cs3)
          | (ds, rest) => (e :: (sg ++ ds), rest)
        else ([], cs3)
      | [] => ([], cs3)
    some (⟨sign ++ ip ++ frac ++ ex⟩, cs4)

mutual

/-- Parse one JSON value (leading whitespace allowed), fuel-bounded. -/
def parseValue : Nat → List Char → Option (JsonValue × List Char)
  | 0, _ => none
  | fuel + 1, cs =>
    match skipWs cs with
    | 'n' :: 'u' :: 'l' :: 'l' :: r => some (.null, r)
    | 't' :: 'r' :: 'u' :: 'e' :: r => some (.bool true, r)
    | 'f' :: 'a' :: 'l' :: 's' :: 'e' :: r => some (.bool false, r)
    | 'N' :: 'a' :: 'N' :: r => some (.num "NaN", r)
    | 'I' :: 'n' :: 'f' :: 'i' :: 'n' :: 'i' :: 't' :: 'y' :: r =>
      some (.num "Infinity", r)
    | '-' :: 'I' :: 'n' :: 'f' :: 'i' :: 'n' :: 'i' :: 't' :: 'y' :: r =>
      some (.num "-Infinity", r)
    | '"' :: r => (parseStringBody [] r).map (fun p => (.str p.1, p.2))
    | '[' :: r =>
      match skipWs r with
      | ']' :: r2 => some (.arr [], r2)
      | r2 => (parseElems fuel r2).map (fun p => (.arr p.1, p.2))
    | c :: r =>
      if c = lbrace then
        match skipWs r with
        | c2 :: r2 =>
          if c2 = rbrace then some (.obj [], r2)
          else
            (parseMembers fuel (c2 :: r2)).map
              (fun p => (.obj (p.1.foldl (fun d q => dictSet d q.1 q.2) []), p.2))
        | [] => none
      else (parseNumber (c :: r)).map (fun p => (.num p.1, p.2))
    | [] => none

/-- Parse the elements of a non-empty array up to and including `]`. -/
def parseElems : Nat → List Char → Option (List JsonValue × List Char)
  | 0, _ => none
  | fuel + 1, cs =>
    match parseValue fuel cs with
    | none => none
    | some (v, rest) =>
      match skipWs rest with
      | ',' :: r2 => (parseElems fuel r2).map (fun p => (v :: p.1, p.2))
      | ']' :: r2 => some ([v], r2)
      | _ => none

/-- Parse the members of a non-empty object up to and including `}`,
returning the key/value pairs in source order. -/
def parseMembers : Nat → List Char → Option (List (String × JsonValue) × List Char)
  | 0, _ => none
  | fuel + 1, cs =>
    match skipWs cs with
    | '"' :: r =>
      match parseStringBody [] r with
      | none => none
      | some (k, r2) =>
        match skipWs r2 with
        | ':' :: r3 =>
          match parseValue fuel r3 with
          | none => none
          | some (v, r4) =>
            match skipWs r4 with
            | ',' :: r5 => (parseMembers fuel r5).map (fun p => ((k, v) :: p.1, p.2))
            | c5 :: r5 =>
              if c5 = rbrace then some ([(k, v)], r5) else none
            | [] => none
        | _ => none
    | _ => none

end

/-- `json.loads(s)`: parse one JSON document, then require only trailing
whitespace.  `none` models a raised `JSONDecodeError`. -/
def json_loads (s : String) : Option JsonValue :=
  match parseValue (s.data.length + 1) s.data with
  | some (v, rest) => if skipWs rest = [] then some v else none
  | none => none

/-! ## `try_parse_json` (app.py lines 54–59)

The Python helper returns `json.loads(s)` on success and `None` on any
exception.  Since `json.loads("null")` is itself the Python value `None`,
the helper's return value conflates a parsed JSON `null` with a parse
failure; the embedding maps both to `none`. -/

/-- `try_parse_json(s)`: `none` both when parsing fails and when the
document is the JSON value `null` (Python returns the sentinel `None` in
both cases). -/
def try_parse_json (s : String) : Option JsonValue :=
  match json_loads s with
  | some .null => none
  | some v => some v
  | none => none

/-! ## `build_auth` (app.py lines 45–51) -/

/-- Python truthiness of an `Optional[str]`: `None` and `""` are falsy. -/
def truthyStr : Option String → Bool
  | none => false
  | some s => s ≠ ""

/-- `build_auth(auth_type, bearer, user, pwd)`: returns
`(headers_add, requests_auth)`. -/
def build_auth (auth_type : String) (bearer user pwd : Option String) :
    List (String × String) × Option (String × String) :=
  if auth_type = "Bearer" ∧ truthyStr bearer then
    ([("Authorization", "Bearer " ++ bearer.getD "")], none)
  else if auth_type = "Basic" ∧ user.isSome then
    ([], some (user.getD "", pwd.getD ""))
  else ([], none)

/-! ## The body tab (app.py lines 111–125)

For `GET` the tab unconditionally sets `body_mode = None` and
`body_raw = ""`; otherwise the radio selection `"none"` maps to `None`
and the text area matching the selected mode supplies `body_raw`. -/

/-- `body_mode` as set by the body tab. -/
def form_body_mode (method : String) (mode_selection : String) : Option String :=
  if method = "GET" then none
  else if mode_selection = "none" then none
  else some mode_selection

/-- `body_raw` as set by the body tab. -/
def form_body_raw (method : String) (mode_selection : String)
    (json_text raw_text : String) : String :=
  if method = "GET" then ""
  else if mode_selection = "json" then json_text
  else if mode_selection = "raw" then raw_text
  else ""

/-! ## The submit handler (app.py lines 203–237)

`build_request` covers the handler up to the `requests.request` call: the
URL prefix check, row collection, auth resolution and merge, and body
assembly.  `none` models the `st.error` branch, where no descriptor is
built and no HTTP call happens.  The transport-only scalars `timeout_s`
and `verify_ssl` are passed through to the HTTP client unchanged and are
not modelled. -/

/-- The outbound request descriptor: the keyword arguments the handler
passes to `requests.request` (minus the transport scalars). -/
structure BuiltRequest where
  method : String
  url : String
  params : List (String × String)
  headers : List (String × String)
  data : Option String
  json_payload : Option JsonValue
  auth : Option (String × String)

/-- The submit handler through body assembly.  Returns `none` exactly on
the invalid-URL error path, otherwise the fully assembled descriptor. -/
def build_request (method url : String) (headers_rows params_rows : List Row)
    (auth_type : String) (bearer_token basic_user basic_pass : Option String)
    (body_mode : Option String) (body_raw : String) : Option BuiltRequest :=
  if ¬ (pyStartswith (pyStrip url) "http") then none
  else
    let headers := kv_rows_to_dict headers_rows
    let params := kv_rows_to_dict params_rows
    let (auth_headers, requests_auth) :=
      build_auth auth_type bearer_token basic_user basic_pass
    let headers := dictUpdate headers auth_headers
    let (data, json_payload, headers) :=
      if body_mode = some "json" ∧ pyStrip body_raw ≠ "" then
        (none, try_parse_json body_raw,
          dictSetdefault headers "Content-Type" APPLICATION_JSON)
      else if body_mode = some "raw" then
        (some body_raw, none,
          dictSetdefault headers "Content-Type" "application/json")
      else (none, none, headers)
    some
      { method := method, url := url, params := params, headers := headers
        data := data, json_payload := json_payload, auth := requests_auth }

/-- The full submission: the body tab feeding the submit handler. -/
def submit_request (method url : String) (headers_rows params_rows : List Row)
    (auth_type : String) (bearer_token basic_user basic_pass : Option String)
    (mode_selection json_text raw_text : String) : Option BuiltRequest :=
  build_request method url headers_rows params_rows
    auth_type bearer_token basic_user basic_pass
    (form_body_mode method mode_selection)
    (form_body_raw method mode_selection json_text raw_text)

/-! ## The response body viewer (app.py lines 257–271)

`content_type = resp.headers.get("Content-Type", "")`; if it contains
`"application/json"` the viewer tries `resp.json()` (a plain
`json.loads` of the body text) and falls back to `st.text(resp.text)`;
otherwise it tries `try_parse_json(resp.text)` and falls back to
`st.text_area(..., value=resp.text)`.  Both fallbacks display the body
text unchanged, so a single `plain` constructor models them. -/

/-- The rendering decision for a response body. -/
inductive BodyView where
  | structured (v : JsonValue)
  | plain (s : String)

/-- The body viewer's decision, given the declared `Content-Type` value
and the response body text. -/
def render_body (content_type : String) (body_text : String) : BodyView :=
  if strIn "application/json" content_type then
    match json_loads body_text with
    | some v => .structured v
    | none => .plain body_text
  else
    match try_parse_json body_text with
    | some v => .structured v
    | none => .plain body_text

/-! ## Presets (app.py lines 15–28 and 146–168)

`RequestPreset` is the pydantic model (the transport scalars `timeout_s`
and `verify_ssl` are carried but never inspected by the save logic; the
float `timeout_s` is not modelled).  The save handler runs inside
`try/except ValidationError`: only after the model is constructed does it
filter out presets with the same name and append the new one.  The
construction outcome of the external pydantic layer is modelled as an
`Except`, so the handler's control flow — mutate only on success — is
explicit. -/

/-- The `RequestPreset` pydantic model. -/
structure RequestPreset where
  name : String
  method : String
  url : String
  headers : List (String × String) := []
  params : List (String × String) := []
  auth_type : String := "None"
  bearer_token : Option String := none
  basic_user : Option String := none
  basic_pass : Option String := none
  body_mode : Option String := none
  body_raw : String := ""
  verify_ssl : Bool := true
deriving DecidableEq, Repr

/-- `new_name.strip() or "Preset"`: a blank name becomes the placeholder. -/
def preset_name (new_name : String) : String :=
  if pyStrip new_name = "" then "Preset" else pyStrip new_name

/-- The two mutation statements of the save handler:
`presets = [p for p in presets if p.name != preset.name]` then
`presets.append(preset)`. -/
def save_preset_ok (store : List RequestPreset) (preset : RequestPreset) :
    List RequestPreset :=
  (store.filter (fun p => p.name ≠ preset.name)) ++ [preset]

/-- The whole save handler: if constructing the pydantic model raised a
`ValidationError` (the `Except.error` case) the handler only reports the
error and the store is left as it was; otherwise the upsert runs. -/
def save_preset (store : List RequestPreset)
    (construction : Except String RequestPreset) : List RequestPreset :=
  match construction with
  | .error _ => store
  | .ok preset => save_preset_ok store preset

/-- The descriptor assembled for the end-to-end `GET /ping` scenario:
no params, no headers, no body, no auth. -/
def pingRequest : BuiltRequest :=
  { method := "GET", url := "https://api.example.com/ping", params := []
    headers := [], data := none, json_payload := none, auth := none }

/-- A saved preset named `X` whose body is `one` (witness fixture). -/
def presetXOne : RequestPreset :=
  { name := "X", method := "POST", url := "https://a", body_raw := "one" }

/-- A second configuration saved under the same name `X`, body `two`. -/
def presetXTwo : RequestPreset :=
  { name := "X", method := "POST", url := "https://a", body_raw := "two" }

/-! ## Dictionary lemmas -/

theorem dictGet_dictSet {α : Type} (d : List (String × α)) (k k' : String) (v : α) :
    dictGet (dictSet d k v) k' = if k' = k then some v else dictGet d k' := by
  induction d with
  | nil =>
    by_cases h : k' = k
    · subst h; simp [dictSet, dictGet]
    · simp [dictSet, dictGet, h, Ne.symm h]
  | cons p d ih =>
    obtain ⟨k0, v0⟩ := p
    by_cases h0 : k0 = k
    · subst h0
      by_cases h : k' = k0
      · subst h; simp [dictSet, dictGet]
      · simp [dictSet, dictGet, h, Ne.symm h]
    · by_cases h : k' = k0
      · subst h
        simp [dictSet, dictGet, h0, Ne.symm h0]
      · simp [dictSet, dictGet, h0, h, Ne.symm h, ih]

theorem dictGet_dictSetdefault {α : Type} (d : List (String × α)) (k k' : String) (v : α) :
    dictGet (dictSetdefault d k v) k' =
      if k' = k then some ((dictGet d k).getD v) else dictGet d k' := by
  induction d with
  | nil =>
    by_cases h : k' = k
    · subst h; simp [dictSetdefault, dictGet]
    · simp [dictSetdefault, dictGet, h, Ne.symm h]
  | cons p d ih =>
    obtain ⟨k0, v0⟩ := p
    by_cases h0 : k0 = k
    · subst h0
      by_cases h : k' = k0
      · subst h; simp [dictSetdefault, dictGet]
      · simp [dictSetdefault, dictGet, h, Ne.symm h]
    · by_cases h : k' = k0
      · subst h
        simp [dictSetdefault, dictGet, h0, Ne.symm h0]
      · simp [dictSetdefault, dictGet, h0, h, Ne.symm h, ih]

theorem dictUpdate_nil {α : Type} (d : List (String × α)) : dictUpdate d [] = d := rfl

theorem dictUpdate_single {α : Type} (d : List (String × α)) (k : String) (v : α) :
    dictUpdate d [(k, v)] = dictSet d k v := rfl

/-- The extra headers produced by `build_auth` are either empty or the
single `Authorization` entry. -/
theorem build_auth_headers_shape (a : String) (b u p : Option String) :
    (build_auth a b u p).1 = [] ∨
      ∃ t, (build_auth a b u p).1 = [("Authorization", t)] := by
  unfold build_auth
  split_ifs <;> simp

/-- Merging the auth headers never touches the `Content-Type` entry. -/
theorem dictGet_contentType_dictUpdate_auth (d : List (String × String))
    (a : String) (b u p : Option String) :
    dictGet (dictUpdate d (build_auth a b u p).1) "Content-Type" =
      dictGet d "Content-Type" := by
  rcases build_auth_headers_shape a b u p with h | ⟨t, h⟩
  · rw [h, dictUpdate_nil]
  · rw [h, dictUpdate_single, dictGet_dictSet]
    simp

/-! ## Claim theorems -/

/-- C6: `build_auth` is a total function: auth type `None` yields no extra
headers and no transport credentials; `Bearer` with a non-empty token
yields exactly the header `Authorization: Bearer <token>` and no
credentials, while an absent or empty token behaves as `None`; `Basic`
with a defined username yields no extra headers and the transport
credentials `(username, password-or-empty-string)`, while an undefined
username behaves as `None`. -/
theorem build_auth_spec :
    (∀ b u p, build_auth "None" b u p = ([], none)) ∧
    (∀ t u p, t ≠ "" → build_auth "Bearer" (some t) u p =
        ([("Authorization", "Bearer " ++ t)], none)) ∧
    (∀ u p, build_auth "Bearer" none u p = ([], none)) ∧
    (∀ u p, build_auth "Bearer" (some "") u p = ([], none)) ∧
    (∀ b p un, build_auth "Basic" b (some un) p = ([], some (un, p.getD ""))) ∧
    (∀ b p, build_auth "Basic" b none p = ([], none)) := by
  refine ⟨fun b u p => ?_, fun t u p ht => ?_, fun u p => ?_, fun u p => ?_,
    fun b p un => ?_, fun b p => ?_⟩ <;>
    simp [build_auth, truthyStr, *]

/-- C6 witness: `build_auth` evaluated on the claim's concrete cases. -/
theorem build_auth_spec_witness :
    build_auth "Bearer" (some "tok") none none =
      ([("Authorization", "Bearer tok")], none) ∧
    build_auth "None" (some "tok") (some "u") (some "p") = ([], none) ∧
    build_auth "Basic" none (some "u") none = ([], some ("u", "")) :=
  ⟨build_auth_spec.2.1 "tok" none none (by decide),
   build_auth_spec.1 (some "tok") (some "u") (some "p"),
   build_auth_spec.2.2.2.2.1 none none "u"⟩

/-- C4: a submission is rejected (no descriptor is built, so no HTTP call
is made) exactly when the trimmed URL does not start with `"http"`; in
particular `"ftp://host"` is rejected while `"https://host"` and
`"http://host"` are accepted. -/
theorem url_check_rejects_exactly_non_http :
    (∀ m url hr pr a bt bu bp bm braw,
      build_request m url hr pr a bt bu bp bm braw = none ↔
        pyStartswith (pyStrip url) "http" = false) ∧
    build_request "GET" "ftp://host" [] [] "None" none none none none "" = none ∧
    (build_request "GET" "https://host" [] [] "None" none none none none "").isSome = true ∧
    (build_request "GET" "http://host" [] [] "None" none none none none "").isSome = true := by
  refine ⟨fun m url hr pr a bt bu bp bm braw => ?_, by rfl, by rfl, by rfl⟩
  cases hb : pyStartswith (pyStrip url) "http" <;> simp [build_request, hb]

/-- C8: when constructing/validating the preset raises a `ValidationError`,
the save handler leaves the store exactly as it was. -/
theorem save_preset_validation_error_keeps_store
    (store : List RequestPreset) (msg : String) :
    save_preset store (Except.error msg) = store := rfl

/-- C5 counterexample: `"httpfoo://host"` passes the submission-time URL
check (a descriptor is built), yet its trimmed form starts with neither
`"http://"` nor `"https://"`. -/
theorem accepted_url_without_scheme_prefix :
    (build_request "GET" "httpfoo://host" [] [] "None" none none none none "").isSome
      = true ∧
    pyStartswith (pyStrip "httpfoo://host") "http://" = false ∧
    pyStartswith (pyStrip "httpfoo://host") "https://" = false :=
  ⟨rfl, rfl, rfl⟩

/-- C5 (amended): every URL accepted by the submission-time validation has
a trimmed form starting with `"http"` (not necessarily with `"http://"`
or `"https://"`); equivalently, a URL whose trimmed form does not start
with `"http"` is rejected. -/
theorem accepted_url_starts_with_http (m url : String) (hr pr : List Row)
    (a : String) (bt bu bp : Option String) (bm : Option String) (braw : String)
    (r : BuiltRequest)
    (h : build_request m url hr pr a bt bu bp bm braw = some r) :
    pyStartswith (pyStrip url) "http" = true := by
  cases hb : pyStartswith (pyStrip url) "http"
  · rw [build_request] at h
    simp [hb] at h
  · rfl

/-- C5 witness: the amended statement applied to `"https://host"`. -/
theorem accepted_url_starts_with_http_witness :
    pyStartswith (pyStrip "https://host") "http" = true :=
  accepted_url_starts_with_http "GET" "https://host" [] [] "None" none none none
    none ""
    { method := "GET", url := "https://host", params := [], headers := []
      data := none, json_payload := none, auth := none }
    (by rfl)

/-- C2: with body-mode `json` and a non-blank body text that fails to
parse, the submission is not rejected: a descriptor is built whose JSON
payload is null/absent and which carries no raw-data body, and
`Content-Type: application/json` is added with set-if-absent semantics
(a Content-Type supplied in the header rows survives unchanged). -/
theorem malformed_json_body_not_rejected (method url : String)
    (hr pr : List Row) (a : String) (bt bu bp : Option String)
    (body_raw : String)
    (hurl : pyStartswith (pyStrip url) "http" = true)
    (hblank : pyStrip body_raw ≠ "")
    (hfail : try_parse_json body_raw = none) :
    ∃ r, build_request method url hr pr a bt bu bp (some "json") body_raw
        = some r ∧
      r.json_payload = none ∧ r.data = none ∧
      (∀ v, dictGet (kv_rows_to_dict hr) "Content-Type" = some v →
        dictGet r.headers "Content-Type" = some v) ∧
      (dictGet (kv_rows_to_dict hr) "Content-Type" = none →
        dictGet r.headers "Content-Type" = some APPLICATION_JSON) := by
  rcases hba : build_auth a bt bu bp with ⟨ah, ra⟩
  have hct : dictGet (dictUpdate (kv_rows_to_dict hr) ah) "Content-Type"
      = dictGet (kv_rows_to_dict hr) "Content-Type" := by
    have := dictGet_contentType_dictUpdate_auth (kv_rows_to_dict hr) a bt bu bp
    rwa [hba] at this
  refine ⟨{ method := method, url := url, params := kv_rows_to_dict pr
            headers := dictSetdefault (dictUpdate (kv_rows_to_dict hr) ah)
              "Content-Type" APPLICATION_JSON
            data := none, json_payload := none, auth := ra },
    ?_, rfl, rfl, ?_, ?_⟩
  · rw [build_request]
    simp [hurl, hba, hblank, hfail]
  · intro v hv
    simp [dictGet_dictSetdefault, hct, hv]
  · intro hn
    simp [dictGet_dictSetdefault, hct, hn]

/-- C2 witness: a malformed `json` body on a valid URL still builds a
descriptor, with a null payload and the default `Content-Type`. -/
theorem malformed_json_body_not_rejected_witness :
    ∃ r, build_request "POST" "https://h" [] [] "None" none none none
        (some "json") "not json" = some r ∧
      r.json_payload = none ∧ r.data = none ∧
      (∀ v, dictGet (kv_rows_to_dict []) "Content-Type" = some v →
        dictGet r.headers "Content-Type" = some v) ∧
      (dictGet (kv_rows_to_dict []) "Content-Type" = none →
        dictGet r.headers "Content-Type" = some APPLICATION_JSON) :=
  malformed_json_body_not_rejected "POST" "https://h" [] [] "None"
    none none none "not json" (by rfl) (by decide) (by rfl)

/-- C9: a `GET` submission carries no body — the body tab forces
body-mode off, so the descriptor has no raw-data body, no JSON payload,
and its `Content-Type` entry is exactly whatever the user's header rows
supplied (no default is added). -/
theorem get_request_no_body (url : String) (hr pr : List Row) (a : String)
    (bt bu bp : Option String) (ms jt rt : String) (r : BuiltRequest)
    (h : submit_request "GET" url hr pr a bt bu bp ms jt rt = some r) :
    r.data = none ∧ r.json_payload = none ∧
    dictGet r.headers "Content-Type"
      = dictGet (kv_rows_to_dict hr) "Content-Type" := by
  rcases hba : build_auth a bt bu bp with ⟨ah, ra⟩
  have hct : dictGet (dictUpdate (kv_rows_to_dict hr) ah) "Content-Type"
      = dictGet (kv_rows_to_dict hr) "Content-Type" := by
    have := dictGet_contentType_dictUpdate_auth (kv_rows_to_dict hr) a bt bu bp
    rwa [hba] at this
  rw [submit_request, build_request] at h
  cases hb : pyStartswith (pyStrip url) "http"
  · simp [hb, form_body_mode] at h
  · simp only [form_body_mode, form_body_raw, if_pos rfl, hb, not_true_eq_false,
      Bool.true_eq_false, if_false, hba] at h
    simp only [reduceCtorEq, false_and, if_false, reduceIte,
      Option.some.injEq] at h
    subst h
    exact ⟨rfl, rfl, hct⟩

/-- C9 witness: the end-to-end scenario — `GET https://api.example.com/ping`
with no headers, params or body yields a descriptor with empty body and no
`Content-Type` header. -/
theorem get_request_no_body_witness :
    pingRequest.data = none ∧ pingRequest.json_payload = none ∧
    dictGet pingRequest.headers "Content-Type" = none :=
  get_request_no_body "https://api.example.com/ping" [] [] "None"
    none none none "none" "" "" pingRequest (by rfl)

/-! ## Lemmas for the `kv_rows_to_dict` contract -/

theorem mem_dictSet {α : Type} {p : String × α}
    {d : List (String × α)} {k : String} {v : α}
    (h : p ∈ dictSet d k v) : p = (k, v) ∨ p ∈ d := by
  induction d with
  | nil => simpa [dictSet] using h
  | cons q d ih =>
    obtain ⟨k0, v0⟩ := q
    by_cases h0 : k0 = k
    · subst h0
      have he : dictSet ((k0, v0) :: d) k0 v = (k0, v) :: d := by
        simp [dictSet]
      rw [he] at h
      rcases List.mem_cons.mp h with h | h
      · exact Or.inl h
      · exact Or.inr (List.mem_cons_of_mem _ h)
    · have he : dictSet ((k0, v0) :: d) k v = (k0, v0) :: dictSet d k v := by
        simp [dictSet, h0]
      rw [he] at h
      rcases List.mem_cons.mp h with h | h
      · exact Or.inr (h ▸ List.mem_cons_self _ _)
      · rcases ih h with h | h
        · exact Or.inl h
        · exact Or.inr (List.mem_cons_of_mem _ h)

theorem kv_fold_mem (rows : List Row) : ∀ (acc : List (String × String))
    (p : String × String), p ∈ List.foldl kvStep acc rows →
    p ∈ acc ∨ ∃ r ∈ rows, p.1 = pyStrip (getOrEmpty r.key) ∧
      p.2 = pyStrip (getOrEmpty r.value) ∧ p.1 ≠ "" := by
  induction rows with
  | nil => exact fun acc p h => Or.inl h
  | cons r rs ih =>
    intro acc p h
    rw [List.foldl_cons] at h
    rcases ih (kvStep acc r) p h with h' | ⟨r', hr', h1, h2, h3⟩
    · unfold kvStep at h'
      by_cases hk : pyStrip (getOrEmpty r.key) ≠ ""
      · rw [if_pos hk] at h'
        rcases mem_dictSet h' with h' | h'
        · subst h'
          exact Or.inr ⟨r, List.mem_cons_self _ _, rfl, rfl, hk⟩
        · exact Or.inl h'
      · rw [if_neg hk] at h'
        exact Or.inl h'
    · exact Or.inr ⟨r', List.mem_cons_of_mem _ hr', h1, h2, h3⟩

theorem kv_fold_lookup (rows : List Row) : ∀ (acc : List (String × String))
    (k : String), dictGet (List.foldl kvStep acc rows) k =
      match lastWinsSpec rows k with
      | some v => some v
      | none => dictGet acc k := by
  induction rows with
  | nil => intro acc k; rfl
  | cons r rs ih =>
    intro acc k
    rw [List.foldl_cons, ih (kvStep acc r) k]
    cases hrs : lastWinsSpec rs k with
    | some v => simp [lastWinsSpec, hrs]
    | none =>
      simp only [lastWinsSpec, hrs]
      by_cases hk : pyStrip (getOrEmpty r.key) = k ∧ pyStrip (getOrEmpty r.key) ≠ ""
      · rw [if_pos hk]
        unfold kvStep
        rw [if_pos hk.2, hk.1, dictGet_dictSet, if_pos rfl]
      · rw [if_neg hk]
        unfold kvStep
        by_cases h2 : pyStrip (getOrEmpty r.key) ≠ ""
        · have hne : pyStrip (getOrEmpty r.key) ≠ k := fun hc => hk ⟨hc, h2⟩
          rw [if_pos h2, dictGet_dictSet, if_neg (fun hc => hne hc.symm)]
        · rw [if_neg h2]

/-- C3: `kv_rows_to_dict` succeeds on every row list; every key and value
in the result is the whitespace-stripped form of some input row, no key is
empty, and looking up any key yields the value of the last row whose
stripped key matches (later duplicates win). -/
theorem kv_rows_to_dict_spec (rows : List Row) :
    (∀ p ∈ kv_rows_to_dict rows, p.1 ≠ "" ∧
      ∃ r ∈ rows, p.1 = pyStrip (getOrEmpty r.key) ∧
        p.2 = pyStrip (getOrEmpty r.value)) ∧
    (∀ k, dictGet (kv_rows_to_dict rows) k = lastWinsSpec rows k) := by
  constructor
  · intro p hp
    rcases kv_fold_mem rows [] p hp with h | ⟨r, hr, h1, h2, h3⟩
    · simp at h
    · exact ⟨h3, r, hr, h1, h2⟩
  · intro k
    rw [kv_rows_to_dict, kv_fold_lookup rows [] k]
    cases lastWinsSpec rows k <;> rfl

/-- C3 witness: the spec's example rows `[(a,1),(a,2),(empty,x)]` collapse
to exactly `[(a,2)]`, the last duplicate winning and the empty key dropped. -/
theorem kv_rows_to_dict_spec_witness :
    (("a", "2") : String × String).1 ≠ "" ∧
    (∃ r ∈ exampleRows, (("a", "2") : String × String).1
        = pyStrip (getOrEmpty r.key) ∧
      (("a", "2") : String × String).2 = pyStrip (getOrEmpty r.value)) ∧
    dictGet (kv_rows_to_dict exampleRows) "a" = lastWinsSpec exampleRows "a" ∧
    kv_rows_to_dict exampleRows = [("a", "2")] :=
  have h := (kv_rows_to_dict_spec exampleRows).1 ("a", "2") (by decide)
  ⟨h.1, h.2, (kv_rows_to_dict_spec exampleRows).2 "a", by rfl⟩

/-! ## Lemmas for the preset upsert -/

theorem countP_filter_ne (l : List RequestPreset) (nm : String) :
    (l.filter (fun p => p.name ≠ nm)).countP (fun q => q.name = nm) = 0 := by
  induction l with
  | nil => rfl
  | cons q l ih =>
    by_cases h : q.name = nm
    · simp [List.filter_cons, h, ih]
    · simp [List.filter_cons, h, List.countP_cons, ih]

theorem filter_ne_of_countP_zero (l : List RequestPreset) (nm : String)
    (h : l.countP (fun q => q.name = nm) = 0) :
    l.filter (fun p => p.name ≠ nm) = l := by
  induction l with
  | nil => rfl
  | cons q l ih =>
    rw [List.countP_cons] at h
    by_cases hq : q.name = nm
    · simp [hq] at h
    · rw [if_neg (by simp [hq])] at h
      have h' : l.countP (fun q => q.name = nm) = 0 := by omega
      rw [List.filter_cons, if_pos (by simp [hq]), ih h']

theorem filter_ne_length_of_countP_one (l : List RequestPreset) (nm : String)
    (h : l.countP (fun q => q.name = nm) = 1) :
    (l.filter (fun p => p.name ≠ nm)).length + 1 = l.length := by
  induction l with
  | nil => simp at h
  | cons q l ih =>
    rw [List.countP_cons] at h
    by_cases hq : q.name = nm
    · rw [if_pos (by simp [hq])] at h
      have h0 : l.countP (fun q => q.name = nm) = 0 := by omega
      rw [List.filter_cons, if_neg (by simp [hq]),
        filter_ne_of_countP_zero l nm h0]
      simp
    · rw [if_neg (by simp [hq])] at h
      have h' : l.countP (fun q => q.name = nm) = 1 := by omega
      have ihh := ih h'
      rw [List.filter_cons, if_pos (by simp [hq])]
      simp only [List.length_cons]
      omega

/-- C7: preset save is an upsert-by-name: after a save, exactly one preset
carries the saved name and it is the newly saved configuration, sitting at
the end of the iteration order; re-saving a name already present exactly
once leaves the store size unchanged; a blank supplied name is replaced by
the placeholder `"Preset"`. -/
theorem save_preset_upsert (store : List RequestPreset) (preset : RequestPreset) :
    ((save_preset store (Except.ok preset)).countP
      (fun q => q.name = preset.name) = 1) ∧
    ((save_preset store (Except.ok preset)).getLast? = some preset) ∧
    (∀ q ∈ save_preset store (Except.ok preset),
      q.name = preset.name → q = preset) ∧
    (store.countP (fun q => q.name = preset.name) = 1 →
      (save_preset store (Except.ok preset)).length = store.length) ∧
    (∀ nm, store.countP (fun q => q.name = nm) ≤ 1 →
      (save_preset store (Except.ok preset)).countP (fun q => q.name = nm) ≤ 1) ∧
    (∀ n, pyStrip n = "" → preset_name n = "Preset") := by
  simp only [save_preset, save_preset_ok]
  have hone : (store.filter (fun p => p.name ≠ preset.name) ++ [preset]).countP
      (fun q => q.name = preset.name) = 1 := by
    rw [List.countP_append, countP_filter_ne]
    simp [List.countP_cons]
  refine ⟨hone, ?_, ?_, ?_, ?_, ?_⟩
  · exact List.getLast?_concat _
  · intro q hq hname
    rcases List.mem_append.mp hq with h | h
    · have hne := (List.mem_filter.mp h).2
      simp at hne
      exact absurd hname hne
    · simpa using h
  · intro h
    rw [List.length_append]
    simpa using filter_ne_length_of_countP_one store preset.name h
  · intro nm hle
    by_cases hnm : nm = preset.name
    · subst hnm
      exact Nat.le_of_eq hone
    · rw [List.countP_append]
      have h0 : ([preset] : List RequestPreset).countP
          (fun q => q.name = nm) = 0 := by
        simp [List.countP_cons, Ne.symm hnm]
      rw [h0, Nat.add_zero]
      exact Nat.le_trans
        ((List.filter_sublist store).countP_le _) hle
  · intro n hn
    simp [preset_name, hn]

/-- C7 witness: saving name `X` a second time with a different body leaves
one preset named `X`, holding the second body, at the end, with the store
length unchanged; a blank name gets the placeholder. -/
theorem save_preset_upsert_witness :
    (save_preset [presetXOne] (Except.ok presetXTwo)).countP
      (fun q => q.name = presetXTwo.name) = 1 ∧
    (save_preset [presetXOne] (Except.ok presetXTwo)).getLast? = some presetXTwo ∧
    (save_preset [presetXOne] (Except.ok presetXTwo)).length =
      ([presetXOne] : List RequestPreset).length ∧
    preset_name "   " = "Preset" :=
  have h := save_preset_upsert [presetXOne] presetXTwo
  ⟨h.1, h.2.1, h.2.2.2.1 (by decide), h.2.2.2.2.2 "   " (by rfl)⟩

/-- C1: the body viewer follows the two-tier sniffing policy.  When the
declared `Content-Type` contains `"application/json"`, the body is parsed
with `json.loads`: success renders structured, failure falls back to the
unmodified body text.  Otherwise a parse is still attempted through the
`try_parse_json` helper: a non-`None` result renders structured, the
`None` sentinel renders the unmodified body text as plain text. -/
theorem render_body_two_tier (ct body : String) :
    (strIn "application/json" ct = true →
      (∀ v, json_loads body = some v →
        render_body ct body = BodyView.structured v) ∧
      (json_loads body = none → render_body ct body = BodyView.plain body)) ∧
    (strIn "application/json" ct = false →
      (∀ v, try_parse_json body = some v →
        render_body ct body = BodyView.structured v) ∧
      (try_parse_json body = none → render_body ct body = BodyView.plain body)) := by
  constructor
  · intro h
    constructor
    · intro v hv
      simp [render_body, h, hv]
    · intro hn
      simp [render_body, h, hn]
  · intro h
    constructor
    · intro v hv
      simp [render_body, h, hv]
    · intro hn
      simp [render_body, h, hn]

/-- C1 witness: the spec's three `ResponseInterpreter` examples — declared
JSON body renders structured, mislabelled JSON body still renders
structured, non-JSON body renders as its own plain text. -/
theorem render_body_two_tier_witness :
    render_body "application/json" "\x7b\"a\":1\x7d"
      = BodyView.structured (JsonValue.obj [("a", JsonValue.num "1")]) ∧
    render_body "text/plain" "\x7b\"a\":1\x7d"
      = BodyView.structured (JsonValue.obj [("a", JsonValue.num "1")]) ∧
    render_body "text/plain" "not json" = BodyView.plain "not json" :=
  ⟨((render_body_two_tier "application/json" "\x7b\"a\":1\x7d").1 (by rfl)).1
      _ (by rfl),
   ((render_body_two_tier "text/plain" "\x7b\"a\":1\x7d").2 (by rfl)).1
      _ (by rfl),
   ((render_body_two_tier "text/plain" "not json").2 (by rfl)).2 (by rfl)⟩

/-- C10: `try_parse_json` returns the `None` sentinel both on parse
failure and on a successful parse of the JSON document `null`; hence a
response without `"application/json"` in its declared content type whose
body is a valid JSON encoding of `null` is rendered as plain text by the
opportunistic second tier, not structured. -/
theorem try_parse_json_null_is_plain :
    (∀ s, json_loads s = some JsonValue.null → try_parse_json s = none) ∧
    (∀ s, json_loads s = none → try_parse_json s = none) ∧
    (∀ ct body, strIn "application/json" ct = false →
      json_loads body = some JsonValue.null →
      render_body ct body = BodyView.plain body) := by
  have h1 : ∀ s, json_loads s = some JsonValue.null → try_parse_json s = none := by
    intro s h
    simp [try_parse_json, h]
  refine ⟨h1, ?_, ?_⟩
  · intro s h
    simp [try_parse_json, h]
  · intro ct body hct hnull
    simp [render_body, hct, h1 body hnull]

/-- C10 witness: the four-character body `null` under content type
`text/plain` hits the sentinel and is rendered as plain text. -/
theorem try_parse_json_null_is_plain_witness :
    try_parse_json "null" = none ∧
    render_body "text/plain" "null" = BodyView.plain "null" :=
  ⟨try_parse_json_null_is_plain.1 "null" (by rfl),
   try_parse_json_null_is_plain.2.2 "text/plain" "null" (by rfl) (by rfl)⟩

end RestApiTester
